import Mathlib

/-!
Verification development for the autofill-app backend.

The Python sources under `backend/` are shallowly embedded as executable
Lean definitions: strings are `List Char`, Python floats are `ℚ`
(the code only adds / multiplies / compares decimal literals),
`None`-able results are `Option`, and the handful of regular expressions
used by the transaction parser are embedded through a small backtracking
regex engine whose leftmost / greedy / lazy semantics mirror Python's
`re` module.  External services (Pinecone, OpenAI) are modelled by
explicit state (a list of vector records) and oracle functions.
-/

namespace Autofill

/-! ## Character and string helpers (Python `str` semantics, ASCII data) -/

/-- Python whitespace set used by `str.strip` and the regex class `\s`. -/
def isPySpace (c : Char) : Bool :=
  c == ' ' || c == '\t' || c == '\n' || c == '\r' || c == '\x0b' || c == '\x0c'

/-- `str.lower` (ASCII: the embedded data never leaves ASCII). -/
def pyLower (s : List Char) : List Char := s.map Char.toLower

/-- `str.strip()`: drop whitespace from both ends. -/
def pyStrip (s : List Char) : List Char :=
  ((s.dropWhile isPySpace).reverse.dropWhile isPySpace).reverse

/-- Python `sub in s` substring test. -/
def pyContainsSub (sub : List Char) : List Char → Bool
  | [] => sub.isPrefixOf []
  | s@(_ :: t) => sub.isPrefixOf s || pyContainsSub sub t

/-- Python `sep.split`-style split of a character list on a single character. -/
def splitOnChar (sep : Char) : List Char → List (List Char)
  | [] => [[]]
  | c :: rest =>
    let r := splitOnChar sep rest
    if c == sep then [] :: r
    else
      match r with
      | [] => [[c]]
      | h :: t => (c :: h) :: t

/-- Digit string to `Nat` (`int(...)` on an all-digit string). -/
def digitsToNat (s : List Char) : Nat :=
  s.foldl (fun acc c => acc * 10 + (c.toNat - 48)) 0

/-- Decimal digits of a natural number, most significant first. -/
def natDigitsAux : Nat → Nat → List Char → List Char
  | 0, n, acc => Char.ofNat (48 + n % 10) :: acc
  | f + 1, n, acc =>
    if n < 10 then Char.ofNat (48 + n) :: acc
    else natDigitsAux f (n / 10) (Char.ofNat (48 + n % 10) :: acc)

def natDigits (n : Nat) : List Char := natDigitsAux n n []

/-- Zero-padded decimal rendering, as `strftime` field formatting does. -/
def padNat (width n : Nat) : List Char :=
  let ds := natDigits n
  List.replicate (width - ds.length) '0' ++ ds

/-! ## A small backtracking regex engine

Priority of alternatives follows Python `re`: leftmost match position,
greedy operators try the longer alternative first, lazy (`*?`, `+?`)
operators the shorter one, and the first overall success wins.
Capture groups record the last text they matched; groups inside an
unused optional stay unset.  `star` iterations must consume input
(Python's empty-match guard), so a fuel of `input length + 2` is exact. -/

inductive RE where
  | eps
  | char (p : Char → Bool)
  | lit (s : List Char)
  | cat (a b : RE)
  | alt (a b : RE)
  | opt (a : RE)
  | star (a : RE)
  | starL (a : RE)
  | group (idx : Nat) (a : RE)
  | eol
  deriving Inhabited

/-- Capture environment: group index to last captured text. -/
def Caps := Nat → Option (List Char)

def caps0 : Caps := fun _ => none

def Caps.set (c : Caps) (i : Nat) (v : List Char) : Caps :=
  fun j => if j == i then some v else c j

/-- One fuel level of the matcher.  `mstar` continues a `star`/`starL`
iteration at the next-lower fuel level; all other recursion is
structural on the pattern. -/
def mrunAux (mstar : RE → List Char → Caps → (List Char → Caps → Option (Caps × List Char)) → Option (Caps × List Char)) :
    RE → List Char → Caps → (List Char → Caps → Option (Caps × List Char)) → Option (Caps × List Char)
  | .eps, s, c, k => k s c
  | .char p, s, c, k =>
    match s with
    | [] => none
    | x :: rest => if p x then k rest c else none
  | .lit l, s, c, k => if l.isPrefixOf s then k (s.drop l.length) c else none
  | .cat a b, s, c, k => mrunAux mstar a s c (fun s' c' => mrunAux mstar b s' c' k)
  | .alt a b, s, c, k => mrunAux mstar a s c k <|> mrunAux mstar b s c k
  | .opt a, s, c, k => mrunAux mstar a s c k <|> k s c
  | .star a, s, c, k =>
    (mrunAux mstar a s c (fun s' c' =>
      if s'.length < s.length then mstar (.star a) s' c' k else none)) <|> k s c
  | .starL a, s, c, k =>
    k s c <|> mrunAux mstar a s c (fun s' c' =>
      if s'.length < s.length then mstar (.starL a) s' c' k else none)
  | .group i a, s, c, k =>
    mrunAux mstar a s c (fun s' c' => k s' (c'.set i (s.take (s.length - s'.length))))
  | .eol, s, c, k => if s.isEmpty then k s c else none

def mrun : Nat → RE → List Char → Caps → (List Char → Caps → Option (Caps × List Char)) → Option (Caps × List Char)
  | 0 => mrunAux (fun _ _ _ _ => none)
  | fuel + 1 => mrunAux (mrun fuel)

/-- `pattern.match(s)`: attempt a match anchored at the start. -/
def reMatch (r : RE) (s : List Char) : Option (Caps × List Char) :=
  mrun (s.length + 2) r s caps0 (fun rest c => some (c, rest))

/-- `re.search`: first position (left to right) where the pattern matches. -/
def reSearchAux (r : RE) : Nat → List Char → Option (Caps × List Char)
  | fuel, s =>
    match reMatch r s with
    | some res => some res
    | none =>
      match fuel, s with
      | fuel' + 1, _ :: t => reSearchAux r fuel' t
      | _, _ => none

def reSearch (r : RE) (s : List Char) : Option (Caps × List Char) :=
  reSearchAux r s.length s

/-- `re.findall` for a pattern wrapped in group 0, collecting group texts.
All patterns used here match at least one character, so scanning resumes
at the end of each match. -/
def reFindAll (r : RE) : Nat → List Char → List (List Char)
  | fuel, s =>
    match reSearch r s with
    | none => []
    | some (c, rest) =>
      ((c 0).getD []) ::
        match fuel with
        | 0 => []
        | fuel' + 1 => if rest.length < s.length then reFindAll r fuel' rest else []

def reFindAllTop (r : RE) (s : List Char) : List (List Char) :=
  reFindAll r s.length s

/-! ## Patterns of `services/transaction_parser.py` -/

def reDigit : RE := .char Char.isDigit

/-- `\d{1,2}` (greedy). -/
def reD12 : RE := .cat reDigit (.opt reDigit)

/-- `\d{2,4}` (greedy). -/
def reD24 : RE := .cat reDigit (.cat reDigit (.opt (.cat reDigit (.opt reDigit))))

/-- `\d{4}`. -/
def reD4 : RE := .cat reDigit (.cat reDigit (.cat reDigit reDigit))

/-- `\d{1,6}` (greedy). -/
def reD16 : RE :=
  .cat reDigit (.opt (.cat reDigit (.opt (.cat reDigit
    (.opt (.cat reDigit (.opt (.cat reDigit (.opt reDigit)))))))))

/-- `\d+` (greedy). -/
def reDPlus : RE := .cat reDigit (.star reDigit)

/-- `.` (no newline). -/
def reAny : RE := .char (fun c => c != '\n')

/-- `\s*` (greedy). -/
def reWsStar : RE := .star (.char isPySpace)

/-- `date_patterns[0]`: `(\d{1,2}/\d{1,2}/\d{2,4})`. -/
def slashDatePat : RE :=
  .group 0 (.cat reD12 (.cat (.char (· == '/')) (.cat reD12 (.cat (.char (· == '/')) reD24))))

/-- `date_patterns[1]`: `(\d{1,2}-\d{1,2}-\d{2,4})`. -/
def dashDatePat : RE :=
  .group 0 (.cat reD12 (.cat (.char (· == '-')) (.cat reD12 (.cat (.char (· == '-')) reD24))))

/-- `date_patterns[2]`: `(\d{4}-\d{1,2}-\d{1,2})`. -/
def isoDatePat : RE :=
  .group 0 (.cat reD4 (.cat (.char (· == '-')) (.cat reD12 (.cat (.char (· == '-')) reD12))))

/-- `amount_patterns[0]`: `([+-]?\$?[\d,]+\.?\d*)`. -/
def amountPat1 : RE :=
  .group 0 (.cat (.opt (.char (fun c => c == '+' || c == '-')))
    (.cat (.opt (.char (· == '$')))
      (.cat (.cat (.char (fun c => c.isDigit || c == ',')) (.star (.char (fun c => c.isDigit || c == ','))))
        (.cat (.opt (.char (· == '.'))) (.star reDigit)))))

/-- `amount_patterns[1]`: `([+-]?[\d,]+\.?\d*)`. -/
def amountPat2 : RE :=
  .group 0 (.cat (.opt (.char (fun c => c == '+' || c == '-')))
    (.cat (.cat (.char (fun c => c.isDigit || c == ',')) (.star (.char (fun c => c.isDigit || c == ','))))
      (.cat (.opt (.char (· == '.'))) (.star reDigit))))

/-- The composite line pattern of `_parse_transaction_line`: an optional
date group (`\d{1,2}` sep `\d{1,2}` sep `\d{2,4}` with sep one of slash or
dash), `\s*`, an optional lazy description group `(?P<desc>.+?)?`, an
optional `ID:` block `(ID:(?P<id>\d+))?`, a lazy `.*?`, an optional amount
group `(?P<amount>[-+]?\$?\d{1,6}(?:\.\d{2})?)?`, then `\s*$`.
Group indices: 0 = date, 1 = desc, 2 = id, 3 = amount. -/
def compositePat : RE :=
  .cat (.opt (.group 0 (.cat reD12 (.cat (.char (fun c => c == '/' || c == '-'))
      (.cat reD12 (.cat (.char (fun c => c == '/' || c == '-')) reD24))))))
  (.cat reWsStar
  (.cat (.opt (.group 1 (.cat reAny (.starL reAny))))
  (.cat (.opt (.cat (.lit ['I', 'D', ':']) (.group 2 reDPlus)))
  (.cat (.starL reAny)
  (.cat (.opt (.group 3 (.cat (.opt (.char (fun c => c == '-' || c == '+')))
      (.cat (.opt (.char (· == '$')))
        (.cat reD16 (.opt (.cat (.char (· == '.')) (.cat reDigit reDigit))))))))
  (.cat reWsStar .eol))))))

/-- `re.search(r'ID:(\d+)', line)`, group 0 = the digits. -/
def idSearchPat : RE := .cat (.lit ['I', 'D', ':']) (.group 0 reDPlus)

/-! ## `services/transaction_parser.py` -/

/-- `transaction_indicators` (lower-case substrings). -/
def transactionIndicators : List (List Char) :=
  [ "des:".data, "id:".data, "indn:".data, "co id:".data, "web".data, "pos".data,
    "atm".data, "check".data, "deposit".data, "withdrawal".data, "transfer".data,
    "payment".data, "charge".data, "fee".data, "rebill".data, "autopay".data ]

/-- `datetime` day-count validation used by `strptime`. -/
def isLeapYear (y : Nat) : Bool := y % 4 == 0 && (y % 100 != 0 || y % 400 == 0)

def daysInMonth (y m : Nat) : Nat :=
  if m == 2 then (if isLeapYear y then 29 else 28)
  else if m == 4 || m == 6 || m == 9 || m == 11 then 30
  else 31

/-- A directive field of `strptime`: 1 to `maxLen` digits. -/
def parseNatField (maxLen : Nat) (s : List Char) : Option Nat :=
  if s ≠ [] && s.length ≤ maxLen && s.all Char.isDigit then some (digitsToNat s) else none

/-- `%y` pivot: 00-68 → 2000s, 69-99 → 1900s. -/
def expandTwoDigitYear (y2 : Nat) : Nat := if y2 < 69 then 2000 + y2 else 1900 + y2

/-- Validate a (year, month, day) triple as `datetime(...)` does
(`MINYEAR = 1`, `MAXYEAR = 9999`). -/
def mkValidDate (y m d : Nat) : Option (Nat × Nat × Nat) :=
  if 1 ≤ y && y ≤ 9999 && 1 ≤ m && m ≤ 12 && 1 ≤ d && d ≤ daysInMonth y m then
    some (y, m, d)
  else none

/-- `strptime(s, "%m<sep>%d<sep>%y")`. -/
def strptimeMDY2 (sep : Char) (s : List Char) : Option (Nat × Nat × Nat) :=
  match splitOnChar sep s with
  | [ms, ds, ys] => do
    let m ← parseNatField 2 ms
    let d ← parseNatField 2 ds
    let y2 ← parseNatField 2 ys
    mkValidDate (expandTwoDigitYear y2) m d
  | _ => none

/-- `strptime(s, "%m<sep>%d<sep>%Y")`. -/
def strptimeMDY4 (sep : Char) (s : List Char) : Option (Nat × Nat × Nat) :=
  match splitOnChar sep s with
  | [ms, ds, ys] => do
    let m ← parseNatField 2 ms
    let d ← parseNatField 2 ds
    let y ← parseNatField 4 ys
    mkValidDate y m d
  | _ => none

/-- `strptime(s, "%Y-%m-%d")`. -/
def strptimeYMD (s : List Char) : Option (Nat × Nat × Nat) :=
  match splitOnChar '-' s with
  | [ys, ms, ds] => do
    let y ← parseNatField 4 ys
    let m ← parseNatField 2 ms
    let d ← parseNatField 2 ds
    mkValidDate y m d
  | _ => none

/-- `strftime('%Y-%m-%d')`. -/
def formatDateISO (ymd : Nat × Nat × Nat) : List Char :=
  padNat 4 ymd.1 ++ ['-'] ++ padNat 2 ymd.2.1 ++ ['-'] ++ padNat 2 ymd.2.2

/-- The per-match body of `_extract_date`: dispatch on `/` versus `-` and on
the length of the last separated component, exactly as the source does. -/
def pyParseDateStr (ds : List Char) : Option (Nat × Nat × Nat) :=
  if ds.contains '/' then
    if ((splitOnChar '/' ds).getLastD []).length == 2 then strptimeMDY2 '/' ds
    else strptimeMDY4 '/' ds
  else if ds.contains '-' then
    if ((splitOnChar '-' ds).getLastD []).length == 2 then strptimeMDY2 '-' ds
    else strptimeYMD ds
  else none

/-- One iteration of `_extract_date`'s pattern loop: search, then parse
the matched text; a parse failure falls through to the next pattern. -/
def tryDatePattern (pat : RE) (line : List Char) : Option (List Char) :=
  match reSearch pat line with
  | none => none
  | some (c, _) =>
    match pyParseDateStr ((c 0).getD []) with
    | none => none
    | some ymd => some (formatDateISO ymd)

/-- `_extract_date`. -/
def extract_date (line : List Char) : Option (List Char) :=
  tryDatePattern slashDatePat line <|> tryDatePattern dashDatePat line <|>
    tryDatePattern isoDatePat line

/-- Python `float(...)` on the cleaned amount strings that
`amount_patterns` can produce: optional sign, digits, optional single
dot, digits; at least one digit overall. -/
def pyFloatOfClean (s : List Char) : Option ℚ :=
  let (sign, rest) :=
    match s with
    | '-' :: r => ((-1 : ℚ), r)
    | '+' :: r => ((1 : ℚ), r)
    | r => ((1 : ℚ), r)
  let intPart := rest.takeWhile Char.isDigit
  let rest2 := rest.drop intPart.length
  let (fracPart, rest3) :=
    match rest2 with
    | '.' :: r => (r.takeWhile Char.isDigit, (r.takeWhile Char.isDigit).length + 1)
    | _ => ([], 0)
  if rest2.drop rest3 == [] && (intPart ≠ [] || fracPart ≠ []) &&
      fracPart.all Char.isDigit then
    some (sign * ((digitsToNat (intPart ++ fracPart) : ℚ) / (10 : ℚ) ^ fracPart.length))
  else none

/-- The body of `_extract_amount`'s match loop: strip `$` and `,`, parse as
float, keep it only if it lies in `[-1000000, 1000000]`. -/
def validAmount (m : List Char) : Option ℚ :=
  match pyFloatOfClean (m.filter (fun c => c != '$' && c != ',')) with
  | none => none
  | some a => if -1000000 ≤ a && a ≤ 1000000 then some a else none

/-- `_extract_amount`: first acceptable match of the first pattern, else of
the second. -/
def extract_amount (line : List Char) : Option ℚ :=
  (reFindAllTop amountPat1 line).findSome? validAmount <|>
    (reFindAllTop amountPat2 line).findSome? validAmount

/-- Python truthiness of an optional string (`None` and `''` are falsy). -/
def truthyOptStr : Option (List Char) → Bool
  | none => false
  | some s => s != []

/-- Python truthiness of an optional float (`None` and `0.0` are falsy). -/
def truthyOptAmt : Option ℚ → Bool
  | none => false
  | some a => a != 0

/-- Does the lower-cased line contain any transaction indicator? -/
def hasTransactionIndicator (line : List Char) : Bool :=
  transactionIndicators.any (fun ind => pyContainsSub ind (pyLower line))

/-- `_calculate_confidence`. -/
def calculate_confidence (line : List Char) (date : Option (List Char))
    (amount : Option ℚ) (description : List Char) : ℚ :=
  let c : ℚ := 0
  let c := if truthyOptStr date then c + 0.3 else c
  let c := if truthyOptAmt amount then c + 0.3 else c
  let c := if description != [] then c + 0.2 else c
  let c := if truthyOptStr date && truthyOptAmt amount && description != [] then c + 0.2 else c
  let c := if hasTransactionIndicator line then c + 0.1 else c
  min 1 c

structure PyTransaction where
  date : List Char
  description : List Char
  amount : ℚ
  raw_text : List Char
  line_number : Nat
  transaction_id : Option (List Char)
  confidence : ℚ
  deriving DecidableEq, Repr

/-- `re.search(r'ID:(\d+)', line)`. -/
def searchTransId (line : List Char) : Option (List Char) :=
  match reSearch idSearchPat line with
  | none => none
  | some (c, _) => some ((c 0).getD [])

/-- `_parse_transaction_line`.  The acceptance test is Python's
`if date and desc and amount is not None`, so an amount of `0.0` is
accepted while a `None` date, empty date string or empty stripped
description rejects the line.  (When the composite pattern fails — it
cannot, every line matches — the source falls through to a nonexistent
`super()` method and returns `None`.) -/
def parse_transaction_line (line : List Char) (line_num : Nat) : Option PyTransaction :=
  match reMatch compositePat line with
  | none => none
  | some (caps, _) =>
    let date := extract_date line
    let amount := extract_amount line
    let desc := pyStrip ((caps 1).getD [])
    let trans_id := searchTransId line
    if truthyOptStr date && desc != [] && amount.isSome then
      some { date := date.getD []
             description := desc
             amount := amount.getD 0
             raw_text := line
             line_number := line_num
             transaction_id := trans_id
             confidence := calculate_confidence line date amount desc }
    else none

/-! ## `database/pinecone_client.py`

The Pinecone index is modelled as a list of vector records carrying the
metadata fields the adapter filters on.  A metadata filter is a record of
optional equality constraints; `index.query` returns up to `top_k`
records satisfying the filter (similarity ordering is irrelevant to the
claims, scores are supplied by an oracle where needed).  An
`index.delete(ids=...)` removes every record whose id is listed. -/

structure VectorRecord where
  id : List Char
  user_id : List Char
  doc_id : List Char
  filename : List Char
  /-- metadata `type` (`chunk` records simply carry another value). -/
  rtype : List Char
  field_type : List Char
  field_value : List Char
  field_context : List Char
  /-- extraction confidence stored in the metadata of `field` records. -/
  confidence : ℚ
  deriving DecidableEq, Repr

structure QueryFilter where
  user_id : Option (List Char) := none
  doc_id : Option (List Char) := none
  filename : Option (List Char) := none
  rtype : Option (List Char) := none
  field_type : Option (List Char) := none
  deriving DecidableEq, Repr

def matchesFilter (f : QueryFilter) (r : VectorRecord) : Bool :=
  (match f.user_id with | none => true | some v => r.user_id == v) &&
  (match f.doc_id with | none => true | some v => r.doc_id == v) &&
  (match f.filename with | none => true | some v => r.filename == v) &&
  (match f.rtype with | none => true | some v => r.rtype == v) &&
  (match f.field_type with | none => true | some v => r.field_type == v)

/-- `index.query(..., filter, top_k, ...)`: up to `top_k` records
satisfying the metadata filter. -/
def indexQuery (st : List VectorRecord) (f : QueryFilter) (top_k : Nat) : List VectorRecord :=
  (st.filter (matchesFilter f)).take top_k

/-- `index.delete(ids=ids)`. -/
def indexDelete (st : List VectorRecord) (ids : List (List Char)) : List VectorRecord :=
  st.filter (fun r => !ids.contains r.id)

/-- `search_similar`: query filtered by `user_id` only, then keep matches
whose similarity score (oracle `score`) reaches `SIMILARITY_THRESHOLD`. -/
def search_similar (score : VectorRecord → ℚ) (threshold : ℚ)
    (st : List VectorRecord) (user_id : List Char) (top_k : Nat) :
    List (VectorRecord × ℚ) :=
  (indexQuery st { user_id := some user_id } top_k).filterMap
    (fun r => if score r ≥ threshold then some (r, score r) else none)

/-- `search_similar_with_filter`: same, with a caller-supplied filter. -/
def search_similar_with_filter (score : VectorRecord → ℚ) (threshold : ℚ)
    (st : List VectorRecord) (f : QueryFilter) (top_k : Nat) :
    List (VectorRecord × ℚ) :=
  (indexQuery st f top_k).filterMap
    (fun r => if score r ≥ threshold then some (r, score r) else none)

/-- `delete_document_vectors`: collect ids by `doc_id` (top 10000), delete
them, then — only when something was found — re-query by `doc_id`
(top 10) and report whether the index is clean; with no matches it
returns `True` immediately. -/
def delete_document_vectors (st : List VectorRecord) (doc_id : List Char) :
    List VectorRecord × Bool :=
  let ids := (indexQuery st { doc_id := some doc_id } 10000).map (·.id)
  if ids ≠ [] then
    let st' := indexDelete st ids
    let verify := indexQuery st' { doc_id := some doc_id } 10
    (st', verify.isEmpty)
  else (st, true)

/-- One strategy of `delete_document_vectors_comprehensive`: query up to
10000 ids by the strategy's filter and delete them; the surrounding
`try/except` turns a backend failure (`fail = true`) into a no-op so the
remaining strategies still run. -/
def deleteStrategy (st : List VectorRecord) (f : QueryFilter) (fail : Bool) :
    List VectorRecord :=
  if fail then st
  else indexDelete st ((indexQuery st f 10000).map (·.id))

/-- `delete_document_vectors_comprehensive`: strategy 1 filters by
`doc_id`, strategy 2 by `user_id` and `filename`, strategy 3 by
`filename` alone; afterwards the adapter waits and re-queries by
`doc_id` (top 10).  A failure of the verification step itself
(`verifyFail`) is caught by the top-level `except`, which returns
`False`. -/
def delete_document_vectors_comprehensive (st : List VectorRecord)
    (doc_id user_id filename : List Char) (f1 f2 f3 verifyFail : Bool) :
    List VectorRecord × Bool :=
  let st1 := deleteStrategy st { doc_id := some doc_id } f1
  let st2 := deleteStrategy st1 { user_id := some user_id, filename := some filename } f2
  let st3 := deleteStrategy st2 { filename := some filename } f3
  if verifyFail then (st3, false)
  else (st3, (indexQuery st3 { doc_id := some doc_id } 10).isEmpty)

/-! ## `services/rag_service.py` -/

/-- A chunk handed to `generate_embeddings`. -/
structure ChunkIn where
  chunk_id : List Char
  doc_id : List Char
  text : List Char
  chunk_index : Nat
  filename : List Char
  file_type : List Char
  deriving DecidableEq, Repr

structure ChunkVectorMeta where
  user_id : List Char
  doc_id : List Char
  chunk_id : List Char
  text : List Char
  filename : List Char
  file_type : List Char
  chunk_index : Nat
  deriving DecidableEq, Repr

structure PineconeVector (μ : Type) where
  id : List Char
  embedding : List ℚ
  metadata : μ
  deriving DecidableEq, Repr

/-- `generate_embeddings`: with no OpenAI key it logs a warning and
returns `[]`; otherwise one embedding per chunk (embedding backend and
id generation are oracles). -/
def generate_embeddings (has_openai_key : Bool) (embed : List Char → List ℚ)
    (genId : List Char → Nat → List Char) (chunks : List ChunkIn)
    (user_id : List Char) : List (PineconeVector ChunkVectorMeta) :=
  if !has_openai_key then []
  else
    chunks.map (fun c =>
      { id := genId c.doc_id c.chunk_index
        embedding := embed c.text
        metadata :=
          { user_id := user_id, doc_id := c.doc_id, chunk_id := c.chunk_id
            text := c.text, filename := c.filename, file_type := c.file_type
            chunk_index := c.chunk_index } })

/-- An extracted field as stored in `document['structured_fields']`. -/
structure FieldEntry where
  value : List Char
  context : List Char
  confidence : ℚ
  deriving DecidableEq, Repr

structure DocumentIn where
  doc_id : List Char
  filename : List Char
  file_type : List Char
  structured_fields : List (List Char × List FieldEntry)
  deriving DecidableEq, Repr

structure FieldVectorMeta where
  user_id : List Char
  doc_id : List Char
  rtype : List Char
  field_type : List Char
  field_value : List Char
  field_context : List Char
  confidence : ℚ
  filename : List Char
  file_type : List Char
  deriving DecidableEq, Repr

/-- `generate_field_embeddings`: with no OpenAI key it returns `[]`;
otherwise one embedding per extracted field, embedding the synthetic
string `"<type>: <value> | Context: <context>"`. -/
def generate_field_embeddings (has_openai_key : Bool) (embed : List Char → List ℚ)
    (genFieldId : List Char → List Char → Nat → List Char) (document : DocumentIn)
    (user_id : List Char) : List (PineconeVector FieldVectorMeta) :=
  if !has_openai_key then []
  else
    document.structured_fields.flatMap (fun ft =>
      ft.2.enum.map (fun ifm =>
        { id := genFieldId document.doc_id ft.1 ifm.1
          embedding := embed (ft.1 ++ ": ".data ++ ifm.2.value ++ " | Context: ".data ++ ifm.2.context)
          metadata :=
            { user_id := user_id, doc_id := document.doc_id, rtype := "field".data
              field_type := ft.1, field_value := ifm.2.value, field_context := ifm.2.context
              confidence := ifm.2.confidence, filename := document.filename
              file_type := document.file_type } }))

/-- `field_type_mappings` of `search_field_matches`. -/
def field_type_mappings : List (List Char × List (List Char)) :=
  [ ("tel".data, ["phone".data]),
    ("phone".data, ["phone".data]),
    ("email".data, ["email".data]),
    ("text".data, ["name".data, "first_name".data, "last_name".data, "full_name".data, "experience".data]),
    ("textarea".data, ["skills".data, "experience".data, "cover_letter".data]),
    ("url".data, ["linkedin".data, "github".data, "website".data]),
    ("date".data, ["date".data]),
    ("address".data, ["address".data]),
    ("education".data, ["education".data]),
    ("name".data, ["full_name".data, "name".data, "first_name".data, "last_name".data]) ]

def lookupTable (key : List Char) : List (List Char × List (List Char)) → Option (List (List Char))
  | [] => none
  | kv :: rest => if kv.1 == key then some kv.2 else lookupTable key rest

/-- The `search_attempts` list of `search_field_matches`. -/
def searchAttempts (field_type : Option (List Char)) : List (Option (List Char)) :=
  match field_type with
  | some ft =>
    match lookupTable ft field_type_mappings with
    | some mapped => mapped.map some
    | none => [some ft]
  | none => [none]

/-- The dedup-and-truncate loop of `search_field_matches`: walk the
score-sorted results, skip already-seen ids, and stop as soon as
`top_k` results have been collected. -/
def dedupTakeById : Nat → List (VectorRecord × ℚ) → List (List Char) → List (VectorRecord × ℚ)
  | _, [], _ => []
  | budget, x :: rest, seen =>
    if seen.contains x.1.id then dedupTakeById budget rest seen
    else if budget ≤ 1 then [x]
    else x :: dedupTakeById (budget - 1) rest (x.1.id :: seen)

/-- `search_field_matches` up to the formatting step: run every search
attempt with filter `{user_id, type: field, field_type?}`, pool the
results, sort by score descending (Python's stable sort) and keep the
first `top_k` distinct ids. -/
def search_field_matches_unique (score : VectorRecord → ℚ) (threshold : ℚ)
    (st : List VectorRecord) (user_id : List Char)
    (field_type : Option (List Char)) (top_k : Nat) : List (VectorRecord × ℚ) :=
  let all_results := (searchAttempts field_type).flatMap (fun attempt =>
    search_similar_with_filter score threshold st
      { user_id := some user_id, rtype := some "field".data, field_type := attempt } top_k)
  dedupTakeById top_k (all_results.mergeSort (fun a b => decide (b.2 ≤ a.2))) []

structure FieldSearchResult where
  field_type : List Char
  field_value : List Char
  /-- similarity score × extraction confidence. -/
  confidence : ℚ
  context : List Char
  filename : List Char
  doc_id : List Char
  similarity_score : ℚ
  extraction_confidence : ℚ
  deriving DecidableEq, Repr

/-- The formatting step of `search_field_matches`. -/
def search_field_matches (score : VectorRecord → ℚ) (threshold : ℚ)
    (st : List VectorRecord) (user_id : List Char)
    (field_type : Option (List Char)) (top_k : Nat) : List FieldSearchResult :=
  (search_field_matches_unique score threshold st user_id field_type top_k).map
    (fun rs =>
      { field_type := rs.1.field_type, field_value := rs.1.field_value
        confidence := rs.2 * rs.1.confidence, context := rs.1.field_context
        filename := rs.1.filename, doc_id := rs.1.doc_id
        similarity_score := rs.2, extraction_confidence := rs.1.confidence })

/-- The synonym table of `_calculate_label_similarity` (keys are matched
against the raw `field_type`, keywords against the lower-cased label). -/
def labelSynonymMappings : List (List Char × List (List Char)) :=
  [ ("email".data, ["email".data, "e-mail".data, "mail".data, "electronic mail".data]),
    ("phone".data, ["phone".data, "tel".data, "telephone".data, "mobile".data, "cell".data]),
    ("name".data, ["name".data, "full name".data, "fullname".data]),
    ("address".data, ["address".data, "street".data, "location".data]),
    ("linkedin".data, ["linkedin".data, "linked-in".data]),
    ("website".data, ["website".data, "url".data, "site".data, "portfolio".data]),
    ("github".data, ["github".data, "git".data]),
    ("experience".data, ["experience".data, "work".data, "employment".data, "job".data]),
    ("education".data, ["education".data, "school".data, "university".data, "degree".data]),
    ("skills".data, ["skills".data, "abilities".data, "technologies".data]) ]

/-- `_calculate_label_similarity`: 1.0 on substring containment in either
direction between the lower-cased label and stored field type, 0.8 when a
synonym keyword of the stored field type occurs in the label, else 0.0. -/
def calculate_label_similarity (field_label field_type : List Char) : ℚ :=
  let label_lower := pyLower field_label
  let type_lower := pyLower field_type
  if pyContainsSub type_lower label_lower || pyContainsSub label_lower type_lower then 1
  else
    match lookupTable field_type labelSynonymMappings with
    | some keywords => if keywords.any (fun kw => pyContainsSub kw label_lower) then 0.8 else 0
    | none => 0

/-- The candidate score of `match_form_field`:
`combined_confidence = (match['confidence'] * 0.7) + (label_similarity * 0.3)`
where `match['confidence']` is similarity × extraction confidence. -/
def combined_confidence (match_confidence : ℚ) (field_label stored_field_type : List Char) : ℚ :=
  match_confidence * 0.7 + calculate_label_similarity field_label stored_field_type * 0.3

structure FormBestMatch where
  value : List Char
  confidence : ℚ
  field_type : List Char
  source : List Char
  context : List Char
  /-- present only on the field-search path. -/
  similarity_score : Option ℚ
  extraction_confidence : Option ℚ
  deriving DecidableEq, Repr

/-- `_ai_extract_field_value`: `None` without an OpenAI key; otherwise the
stripped model response, rejected when empty or `NOT_FOUND`, accepted with
fixed confidence 0.6. -/
def ai_extract_field_value (has_openai_key : Bool) (llmResponse : List Char)
    (field_type context : List Char) : Option FormBestMatch :=
  if !has_openai_key then none
  else
    let extracted := pyStrip llmResponse
    if extracted != [] && extracted != "NOT_FOUND".data then
      some { value := extracted, confidence := 0.6, field_type := field_type
             source := "AI extraction from documents".data
             context := if context.length > 200 then context.take 200 ++ "...".data else context
             similarity_score := none, extraction_confidence := none }
    else none

/-- One step of the candidate loop of `match_form_field`. -/
def considerMatch (field_label : List Char) (acc : Option FormBestMatch × ℚ)
    (m : FieldSearchResult) : Option FormBestMatch × ℚ :=
  let combined := combined_confidence m.confidence field_label m.field_type
  if combined > acc.2 then
    (some { value := m.field_value, confidence := combined, field_type := m.field_type
            source := m.filename, context := m.context
            similarity_score := some m.similarity_score
            extraction_confidence := some m.extraction_confidence }, combined)
  else acc

structure FormMatchResult where
  matched : Bool
  confidence : ℚ
  match_value : Option FormBestMatch
  field_label : List Char
  field_type : List Char
  error : Option (List Char)
  deriving DecidableEq, Repr

/-- `match_form_field`.  The per-query embeddings are an oracle
`scoreOf query`; the chunk-search fallback's outcome is the oracle pair
`docResultsNonempty` / `llmResponse`; `exc` is `some e` when any awaited
step raises, which the top-level `except` turns into the
`matched = False, confidence = 0.0, match = None` result carrying the
error message. -/
def match_form_field (scoreOf : List Char → VectorRecord → ℚ) (threshold : ℚ)
    (st : List VectorRecord) (has_openai_key docResultsNonempty : Bool)
    (llmResponse aiContext : List Char)
    (field_label field_type field_context user_id : List Char)
    (exc : Option (List Char)) : FormMatchResult :=
  match exc with
  | some e =>
    { matched := false, confidence := 0, match_value := none
      field_label := field_label, field_type := field_type, error := some e }
  | none =>
    let search_queries : List (List Char) :=
      [ field_label, field_type ++ [' '] ++ field_label,
        field_label ++ [' '] ++ field_context, field_type ]
    let best := (search_queries.flatMap (fun q =>
        search_field_matches (scoreOf q) threshold st user_id (some field_type) 3)).foldl
      (considerMatch field_label) (none, 0)
    let best :=
      if best.1.isNone || best.2 < 0.3 then
        if docResultsNonempty && has_openai_key then
          match ai_extract_field_value has_openai_key llmResponse field_type aiContext with
          | some ai => if ai.confidence > best.2 then (some ai, ai.confidence) else best
          | none => best
        else best
      else best
    { matched := best.1.isSome, confidence := best.2, match_value := best.1
      field_label := field_label, field_type := field_type, error := none }

/-! ## `services/document_processor.py` -/

/-- `str.split()` with no argument: whitespace-separated words. -/
def pySplitAux : Nat → List Char → List (List Char)
  | 0, _ => []
  | fuel + 1, s =>
    match s.dropWhile isPySpace with
    | [] => []
    | c :: rest =>
      (c :: rest.takeWhile (fun d => !isPySpace d)) ::
        pySplitAux fuel (rest.dropWhile (fun d => !isPySpace d))

def pySplit (s : List Char) : List (List Char) := pySplitAux (s.length + 1) s

/-- Python `str.isalpha()` (ASCII data). -/
def pyIsAlpha (s : List Char) : Bool := s ≠ [] && s.all Char.isAlpha

def jobTitlePhrases : List (List Char) :=
  ["full stack".data, "developer".data, "engineer".data, "manager".data, "director".data]

/-- `_calculate_field_confidence`. -/
def calculate_field_confidence (field_type value context : List Char) : ℚ :=
  let confidence : ℚ := 0.5
  let confidence :=
    if field_type == "email".data then
      if value.contains '@' && ((splitOnChar '@' value).getLastD []).contains '.' then 0.9
      else confidence
    else if field_type == "phone".data then
      let digits := value.filter Char.isDigit
      if 10 ≤ digits.length && digits.length ≤ 11 then 0.8 else confidence
    else if field_type == "name".data || field_type == "full_name".data then
      let words := pySplit value
      if 2 ≤ words.length && pyIsAlpha (value.filter (fun c => c != ' ')) then
        let c := (0.8 : ℚ)
        let c := if value.isPrefixOf context || pyContainsSub value (context.take 200) then 0.95 else c
        let c := if jobTitlePhrases.any (fun p => pyContainsSub p (pyLower value)) then 0.2 else c
        c
      else if words.length == 1 && pyIsAlpha value && 2 < value.length then 0.6
      else confidence
    else if field_type == "linkedin".data then
      if pyContainsSub "linkedin.com".data value then 0.9 else confidence
    else if field_type == "website".data then
      if "http".data.isPrefixOf value && value.contains '.' then 0.8 else confidence
    else confidence
  let confidence := if pyContainsSub field_type (pyLower context) then confidence + 0.1 else confidence
  let confidence := if value.length < 3 then confidence * 0.5 else confidence
  min 1 confidence

/-- A candidate match of `extract_structured_fields_regex`. -/
structure FieldCandidate where
  value : List Char
  context : List Char
  confidence : ℚ
  position : Nat
  deriving DecidableEq, Repr

/-- The duplicate-removal loop of `extract_structured_fields_regex`:
keep the first candidate for each lower-cased value. -/
def dedupByValue : List FieldCandidate → List (List Char) → List FieldCandidate
  | [], _ => []
  | m :: rest, seen =>
    if seen.contains (pyLower m.value) then dedupByValue rest seen
    else m :: dedupByValue rest (pyLower m.value :: seen)

/-- The post-processing of `extract_structured_fields_regex` for one field
type: dedup by lower-cased value, stable sort descending by confidence
(Python's `list.sort(..., reverse=True)`), keep the top 3. -/
def postprocessMatches (ms : List FieldCandidate) : List FieldCandidate :=
  (((dedupByValue ms []).mergeSort
      (fun a b => decide (b.confidence ≤ a.confidence))).take 3)

/-- `extract_structured_fields_regex`, with the per-type regex scan left
abstract: for each field type the scan produces some list of candidates
(each scored by `_calculate_field_confidence`), which the function then
dedups, sorts and truncates. -/
def extract_structured_fields_regex (raw : List (List Char × List FieldCandidate)) :
    List (List Char × List FieldCandidate) :=
  raw.map (fun p => (p.1, postprocessMatches p.2))

/-! ## Helper lemmas -/

theorem deleteStrategy_sublist (st : List VectorRecord) (f : QueryFilter) (b : Bool) :
    List.Sublist (deleteStrategy st f b) st := by
  unfold deleteStrategy
  split
  · exact List.Sublist.refl st
  · exact List.filter_sublist st

theorem matchesFilter_docId (d : List Char) (r : VectorRecord) :
    matchesFilter { doc_id := some d } r = (r.doc_id == d) := by
  simp [matchesFilter]

/-- Records in the final state of comprehensive deletion still matching the
`doc_id` filter form a sublist of those matching it initially. -/
theorem comprehensive_filter_sublist (st : List VectorRecord)
    (d u fn : List Char) (f1 f2 f3 vf : Bool) (p : VectorRecord → Bool) :
    List.Sublist ((delete_document_vectors_comprehensive st d u fn f1 f2 f3 vf).1.filter p)
      (st.filter p) := by
  unfold delete_document_vectors_comprehensive
  have h : List.Sublist (deleteStrategy (deleteStrategy (deleteStrategy st { doc_id := some d } f1)
      { user_id := some u, filename := some fn } f2) { filename := some fn } f3) st :=
    ((deleteStrategy_sublist _ _ _).trans (deleteStrategy_sublist _ _ _)).trans
      (deleteStrategy_sublist _ _ _)
  split <;> exact h.filter p

/-! ## Claims about the vector store adapter -/

/-- C1: `delete_document_vectors_comprehensive` runs its three strategies
(by doc_id, by user_id+filename, by filename alone) with per-strategy
failures caught so the others still run (a failed strategy is a no-op on
the state, and the final state is always the three-strategy composition);
after the propagation wait it returns `true` iff the verification query
by `doc_id` on the final state returns no matches, and any top-level
failure yields `false` rather than an exception. -/
theorem C1_comprehensive_deletion_spec (st : List VectorRecord)
    (d u fn : List Char) (f1 f2 f3 vf : Bool) :
    (delete_document_vectors_comprehensive st d u fn f1 f2 f3 vf).1 =
      deleteStrategy (deleteStrategy (deleteStrategy st { doc_id := some d } f1)
        { user_id := some u, filename := some fn } f2) { filename := some fn } f3
    ∧ ((delete_document_vectors_comprehensive st d u fn f1 f2 f3 vf).2 = true ↔
        (vf = false ∧
          indexQuery (delete_document_vectors_comprehensive st d u fn f1 f2 f3 vf).1
            { doc_id := some d } 10 = []))
    ∧ (vf = true → (delete_document_vectors_comprehensive st d u fn f1 f2 f3 vf).2 = false)
    ∧ (∀ (s : List VectorRecord) (f : QueryFilter), deleteStrategy s f true = s) := by
  refine ⟨?_, ?_, ?_, fun s f => rfl⟩
  · unfold delete_document_vectors_comprehensive
    split <;> rfl
  · unfold delete_document_vectors_comprehensive
    cases vf <;> simp [List.isEmpty_iff]
  · intro hvf
    subst hvf
    rfl

/-- C9: deleting a document whose vectors are already gone (the
id-collection query by `doc_id` finds no matches) succeeds: both
`delete_document_vectors` and `delete_document_vectors_comprehensive`
return `true`. -/
theorem C9_deletion_idempotent (st : List VectorRecord) (d u fn : List Char)
    (f1 f2 f3 : Bool) (h : st.filter (fun r => r.doc_id == d) = []) :
    (delete_document_vectors st d).2 = true ∧
    (delete_document_vectors_comprehensive st d u fn f1 f2 f3 false).2 = true := by
  have hq : ∀ t : List VectorRecord, t.filter (fun r => r.doc_id == d) = [] →
      ∀ k, indexQuery t { doc_id := some d } k = [] := by
    intro t ht k
    unfold indexQuery
    rw [List.filter_congr (fun r _ => matchesFilter_docId d r), ht, List.take_nil]
  constructor
  · unfold delete_document_vectors
    rw [hq st h 10000]
    simp
  · have h3 := comprehensive_filter_sublist st d u fn f1 f2 f3 false (fun r => r.doc_id == d)
    rw [h] at h3
    have h3' := List.sublist_nil.mp h3
    have hstate : (delete_document_vectors_comprehensive st d u fn f1 f2 f3 false).2 =
        (indexQuery (delete_document_vectors_comprehensive st d u fn f1 f2 f3 false).1
          { doc_id := some d } 10).isEmpty := rfl
    rw [hstate, List.isEmpty_iff]
    exact hq _ h3' 10

/-- Witness for C9 at a concrete already-empty index. -/
theorem C9_deletion_idempotent_witness :
    ([] : List VectorRecord).filter (fun r => r.doc_id == "d1".data) = [] ∧
    (delete_document_vectors [] "d1".data).2 = true ∧
    (delete_document_vectors_comprehensive [] "d1".data "u1".data "f.pdf".data
      false false false false).2 = true := by
  refine ⟨rfl, ?_, ?_⟩
  · exact (C9_deletion_idempotent [] "d1".data "u1".data "f.pdf".data
      false false false rfl).1
  · exact (C9_deletion_idempotent [] "d1".data "u1".data "f.pdf".data
      false false false rfl).2

/-- A chunk record of tenant `u1` for document `d1` in file `shared.pdf`. -/
def recU1 : VectorRecord :=
  { id := "a1".data, user_id := "u1".data, doc_id := "d1".data, filename := "shared.pdf".data
    rtype := "chunk".data, field_type := [], field_value := [], field_context := []
    confidence := 0 }

/-- A chunk record of a different tenant `u2` (distinct `doc_id`) that
shares the filename `shared.pdf`. -/
def recU2 : VectorRecord :=
  { id := "b1".data, user_id := "u2".data, doc_id := "d2".data, filename := "shared.pdf".data
    rtype := "chunk".data, field_type := [], field_value := [], field_context := []
    confidence := 0 }

/-- C2 counterexample: comprehensive deletion's strategy 3 queries by
filename alone (no `user_id` filter), so deleting `u1`'s document removes
tenant `u2`'s record with the same filename — refuting the claim that
every query carries a `user_id` filter so no operation ever touches
another tenant's records. -/
theorem C2_counterexample :
    recU2.user_id ≠ "u1".data ∧ recU2 ∈ [recU1, recU2] ∧
    recU2 ∉ (delete_document_vectors_comprehensive [recU1, recU2]
      "d1".data "u1".data "shared.pdf".data false false false false).1 := by
  refine ⟨by decide, by decide, by decide⟩

/-- C2 as amended: similarity search, filtered search whose filter carries
the user, and hence every field-search attempt (whose filters always set
`user_id`) only ever return the calling tenant's records; but comprehensive
deletion's strategies 1 and 3 query by `doc_id` alone and by `filename`
alone, so it can delete another tenant's records sharing the filename. -/
theorem C2_amended_tenant_isolation :
    (∀ (score : VectorRecord → ℚ) (th : ℚ) (st : List VectorRecord)
      (u : List Char) (k : Nat) (x : VectorRecord × ℚ),
        x ∈ search_similar score th st u k → x.1.user_id = u)
    ∧ (∀ (score : VectorRecord → ℚ) (th : ℚ) (st : List VectorRecord)
      (f : QueryFilter) (u : List Char) (k : Nat) (x : VectorRecord × ℚ),
        f.user_id = some u → x ∈ search_similar_with_filter score th st f k →
          x.1.user_id = u)
    ∧ (∀ (score : VectorRecord → ℚ) (th : ℚ) (st : List VectorRecord)
      (u : List Char) (ft : Option (List Char)) (k : Nat) (x : VectorRecord × ℚ),
        x ∈ search_field_matches_unique score th st u ft k → x.1.user_id = u)
    ∧ (∃ (st : List VectorRecord) (d u fn : List Char) (r : VectorRecord),
        r ∈ st ∧ r.user_id ≠ u ∧
          r ∉ (delete_document_vectors_comprehensive st d u fn false false false false).1) := by
  have hfiltered : ∀ (score : VectorRecord → ℚ) (th : ℚ) (st : List VectorRecord)
      (f : QueryFilter) (u : List Char) (k : Nat) (x : VectorRecord × ℚ),
      f.user_id = some u → x ∈ search_similar_with_filter score th st f k →
        x.1.user_id = u := by
    intro score th st f u k x hf hx
    unfold search_similar_with_filter at hx
    obtain ⟨r, hr, hfx⟩ := List.mem_filterMap.mp hx
    have hrx : r = x.1 := by
      by_cases hth : score r ≥ th
      · simp [hth] at hfx
        exact congrArg Prod.fst hfx
      · simp [hth] at hfx
    have hrf : matchesFilter f r = true :=
      (List.mem_filter.mp (List.mem_of_mem_take hr)).2
    unfold matchesFilter at hrf
    rw [hf] at hrf
    have := (Bool.and_eq_true _ _).mp ((Bool.and_eq_true _ _).mp
      ((Bool.and_eq_true _ _).mp ((Bool.and_eq_true _ _).mp hrf).1).1).1
    rw [← hrx]
    exact eq_of_beq this.1
  refine ⟨?_, hfiltered, ?_, ?_⟩
  · intro score th st u k x hx
    exact hfiltered score th st { user_id := some u } u k x rfl hx
  · intro score th st u ft k x hx
    unfold search_field_matches_unique at hx
    have hsub : ∀ (b : Nat) (l : List (VectorRecord × ℚ)) (seen : List (List Char)),
        x ∈ dedupTakeById b l seen → x ∈ l := by
      intro b l
      induction l generalizing b with
      | nil => intro seen hmem; simp [dedupTakeById] at hmem
      | cons y ys ih =>
        intro seen hmem
        unfold dedupTakeById at hmem
        by_cases h1 : seen.contains y.1.id
        · rw [if_pos h1] at hmem
          exact List.mem_cons_of_mem _ (ih _ _ hmem)
        · rw [if_neg h1] at hmem
          by_cases h2 : b ≤ 1
          · rw [if_pos h2] at hmem
            simp only [List.mem_singleton] at hmem
            exact hmem ▸ List.mem_cons_self _ _
          · rw [if_neg h2] at hmem
            rcases List.mem_cons.mp hmem with h | h
            · exact h ▸ List.mem_cons_self _ _
            · exact List.mem_cons_of_mem _ (ih _ _ h)
    have hx' := hsub _ _ _ hx
    rw [List.mem_mergeSort] at hx'
    obtain ⟨attempt, _, hmem⟩ := List.mem_flatMap.mp hx'
    exact hfiltered _ th st _ u _ x rfl hmem
  · exact ⟨[recU1, recU2], "d1".data, "u1".data, "shared.pdf".data, recU2,
      by decide, by decide, by decide⟩

/-- Witness for C2's amended theorem: a concrete similarity search and a
concrete field search return only the querying tenant's record. -/
theorem C2_amended_tenant_isolation_witness :
    ((recU1, (1 : ℚ)) ∈ search_similar (fun _ => 1) 0 [recU1, recU2] "u1".data 5 →
      recU1.user_id = "u1".data)
    ∧ ((recU1, (1 : ℚ)) ∈ search_similar (fun _ => 1) 0 [recU1, recU2] "u1".data 5) := by
  constructor
  · exact fun hmem => C2_amended_tenant_isolation.1 (fun _ => 1) 0 [recU1, recU2]
      "u1".data 5 (recU1, 1) hmem
  · decide

/-! ## Claims about the embedding pipeline and field matcher -/

/-- C8: with no OpenAI API key configured, both `generate_embeddings` and
`generate_field_embeddings` return an empty vector list instead of
raising, for every chunk list and document. -/
theorem C8_no_key_empty_embeddings (embed : List Char → List ℚ)
    (genId : List Char → Nat → List Char)
    (genFieldId : List Char → List Char → Nat → List Char)
    (chunks : List ChunkIn) (document : DocumentIn) (user_id : List Char) :
    generate_embeddings false embed genId chunks user_id = [] ∧
    generate_field_embeddings false embed genFieldId document user_id = [] :=
  ⟨rfl, rfl⟩

/-- C10: when any internal step of `match_form_field` raises, the
top-level handler returns a well-formed result with `matched = false`,
`confidence = 0.0`, no match value and the error message, echoing the
requested label and type — an exception is never propagated. -/
theorem C10_match_form_field_catches_errors
    (scoreOf : List Char → VectorRecord → ℚ) (threshold : ℚ)
    (st : List VectorRecord) (has_openai_key docResultsNonempty : Bool)
    (llmResponse aiContext field_label field_type field_context user_id e : List Char) :
    match_form_field scoreOf threshold st has_openai_key docResultsNonempty
      llmResponse aiContext field_label field_type field_context user_id (some e) =
      { matched := false, confidence := 0, match_value := none
        field_label := field_label, field_type := field_type, error := some e } :=
  rfl

/-- C5: for every candidate of `match_form_field` the combined confidence
is `0.7 × (similarity × extraction confidence) + 0.3 × label affinity`
with the affinity given by `_calculate_label_similarity` (1.0 on
substring containment, 0.8 on the synonym table, else 0.0, values it
takes by definition), and for a fixed nonnegative extraction confidence
a higher similarity never yields a lower combined confidence. -/
theorem C5_combined_confidence_formula_and_monotone
    (field_label stored_type : List Char) (sim1 sim2 ec : ℚ)
    (hec : 0 ≤ ec) (hsim : sim1 ≤ sim2) :
    (∀ sim : ℚ, combined_confidence (sim * ec) field_label stored_type =
      0.7 * (sim * ec) + 0.3 * calculate_label_similarity field_label stored_type)
    ∧ (calculate_label_similarity field_label stored_type = 1 ∨
       calculate_label_similarity field_label stored_type = 0.8 ∨
       calculate_label_similarity field_label stored_type = 0)
    ∧ combined_confidence (sim1 * ec) field_label stored_type ≤
        combined_confidence (sim2 * ec) field_label stored_type := by
  refine ⟨fun sim => by unfold combined_confidence; ring, ?_, ?_⟩
  · unfold calculate_label_similarity
    by_cases h1 : (pyContainsSub (pyLower stored_type) (pyLower field_label) ||
        pyContainsSub (pyLower field_label) (pyLower stored_type)) = true
    · left
      simp [h1]
    · right
      cases hl : lookupTable stored_type labelSynonymMappings with
      | none => right; simp [h1, hl]
      | some kws =>
        by_cases h2 : (kws.any fun kw => pyContainsSub kw (pyLower field_label)) = true
        · left; simp [h1, hl, h2]
        · right; simp [h1, hl, h2]
  · unfold combined_confidence
    have h := mul_le_mul_of_nonneg_right hsim hec
    have h7 : (0 : ℚ) ≤ 0.7 := by norm_num
    exact add_le_add_right (mul_le_mul_of_nonneg_right h h7) _

/-- Witness for C5 at concrete similarities 1 ≤ 2 and extraction
confidence 0.9. -/
theorem C5_combined_confidence_witness :
    (0 : ℚ) ≤ 0.9 ∧ (1 : ℚ) ≤ 2 ∧
    combined_confidence ((1 : ℚ) * 0.9) "Phone Number".data "phone".data ≤
      combined_confidence ((2 : ℚ) * 0.9) "Phone Number".data "phone".data :=
  ⟨by norm_num, by norm_num,
    (C5_combined_confidence_formula_and_monotone "Phone Number".data "phone".data
      1 2 0.9 (by norm_num) (by norm_num)).2.2⟩

/-! ## Claims about the confidence heuristics -/

set_option maxHeartbeats 2000000 in
/-- C7: `_calculate_field_confidence` and the transaction parser's
`_calculate_confidence` always return a value in the closed interval
[0, 1]. -/
theorem C7_confidences_in_unit_interval (ft v ctx line : List Char)
    (date : Option (List Char)) (amount : Option ℚ) (desc : List Char) :
    0 ≤ calculate_field_confidence ft v ctx ∧ calculate_field_confidence ft v ctx ≤ 1 ∧
    0 ≤ calculate_confidence line date amount desc ∧
    calculate_confidence line date amount desc ≤ 1 := by
  have clamp : ∀ c : ℚ, 0 ≤ c → 0 ≤ min 1 c ∧ min 1 c ≤ 1 :=
    fun c hc => ⟨le_min (by norm_num) hc, min_le_left _ _⟩
  have hf : ∃ c : ℚ, 0 ≤ c ∧ calculate_field_confidence ft v ctx = min 1 c := by
    unfold calculate_field_confidence
    dsimp only
    exact ⟨_, by split_ifs <;> norm_num, rfl⟩
  have ht : ∃ c : ℚ, 0 ≤ c ∧ calculate_confidence line date amount desc = min 1 c := by
    unfold calculate_confidence
    dsimp only
    exact ⟨_, by split_ifs <;> norm_num, rfl⟩
  obtain ⟨cf, hcf, hef⟩ := hf
  obtain ⟨ct, hct, het⟩ := ht
  rw [hef, het]
  exact ⟨(clamp cf hcf).1, (clamp cf hcf).2, (clamp ct hct).1, (clamp ct hct).2⟩

/-- Pairwise distinctness of lower-cased values produced by the
duplicate-removal loop of `extract_structured_fields_regex`. -/
theorem dedupByValue_spec : ∀ (l : List FieldCandidate) (seen : List (List Char)),
    (∀ x ∈ dedupByValue l seen, ¬ (seen.contains (pyLower x.value) = true)) ∧
    (dedupByValue l seen).Pairwise (fun a b => pyLower a.value ≠ pyLower b.value) := by
  intro l
  induction l with
  | nil =>
    intro seen
    refine ⟨fun x hx => ?_, by simp [dedupByValue]⟩
    simp [dedupByValue] at hx
  | cons m rest ih =>
    intro seen
    by_cases hc : seen.contains (pyLower m.value) = true
    · unfold dedupByValue
      rw [if_pos hc]
      exact ih seen
    · unfold dedupByValue
      rw [if_neg hc]
      have ih' := ih (pyLower m.value :: seen)
      constructor
      · intro x hx
        rcases List.mem_cons.mp hx with rfl | hx'
        · exact hc
        · have h2 := ih'.1 x hx'
          simp only [List.contains_cons, Bool.or_eq_true] at h2
          exact fun hcx => h2 (Or.inr hcx)
      · refine List.Pairwise.cons (fun x hx => ?_) ih'.2
        have h2 := ih'.1 x hx
        simp only [List.contains_cons, Bool.or_eq_true, beq_iff_eq] at h2
        intro heq
        exact h2 (Or.inl heq.symm)

/-- C6: every per-type list returned by `extract_structured_fields_regex`
has at most 3 entries, is sorted descending by confidence, and contains
no two entries with the same lower-cased value. -/
theorem C6_fields_dedup_sorted_top3 (raw : List (List Char × List FieldCandidate))
    (ft : List Char) (l : List FieldCandidate)
    (h : (ft, l) ∈ extract_structured_fields_regex raw) :
    l.length ≤ 3 ∧ l.Pairwise (fun a b => b.confidence ≤ a.confidence) ∧
    l.Pairwise (fun a b => pyLower a.value ≠ pyLower b.value) := by
  obtain ⟨p, hp, he⟩ := List.mem_map.mp h
  have hl : postprocessMatches p.2 = l := congrArg Prod.snd he
  subst hl
  unfold postprocessMatches
  refine ⟨List.length_take_le _ _, ?_, ?_⟩
  · have hs := @List.sorted_mergeSort FieldCandidate
      (fun a b : FieldCandidate => decide (b.confidence ≤ a.confidence))
      (fun a b c hab hbc => decide_eq_true
        (le_trans (of_decide_eq_true hbc) (of_decide_eq_true hab)))
      (fun a b => by
        rcases le_total b.confidence a.confidence with h | h <;>
          simp [decide_eq_true h])
      (dedupByValue p.2 [])
    have hs' := hs.imp (fun hab => of_decide_eq_true hab)
    exact List.Pairwise.sublist (List.take_sublist _ _) hs'
  · have hd := (dedupByValue_spec p.2 []).2
    have hperm := List.mergeSort_perm (dedupByValue p.2 [])
      (fun a b : FieldCandidate => decide (b.confidence ≤ a.confidence))
    have hd' := hd.perm hperm.symm (fun hab => Ne.symm hab)
    exact List.Pairwise.sublist (List.take_sublist _ _) hd'

/-- Witness for C6 at a concrete single-candidate scan result. -/
theorem C6_fields_dedup_sorted_top3_witness :
    (("email".data, [(⟨"a@b.com".data, [], 0.9, 0⟩ : FieldCandidate)]) ∈
      extract_structured_fields_regex
        [("email".data, [⟨"a@b.com".data, [], 0.9, 0⟩])]) ∧
    ([(⟨"a@b.com".data, [], 0.9, 0⟩ : FieldCandidate)].length ≤ 3) := by
  have hmem : ("email".data, [(⟨"a@b.com".data, [], 0.9, 0⟩ : FieldCandidate)]) ∈
      extract_structured_fields_regex
        [("email".data, [⟨"a@b.com".data, [], 0.9, 0⟩])] := by
    simp [extract_structured_fields_regex, postprocessMatches, dedupByValue]
  exact ⟨hmem, (C6_fields_dedup_sorted_top3 _ "email".data _ hmem).1⟩

/-! ## Claims about the transaction parser -/

/-- C3: evaluating `_parse_transaction_line` on the spec's example line.
The code accepts the line but `_extract_amount` returns the first numeric
token of the line (the month "03" of the date, giving 3.0 instead of the
trailing -4.50) and the lazy optional description group captures a single
character ("C" instead of "COFFEE SHOP PURCHASE"); only the date
(2023-03-01) and `confidence > 0.8` come out as the spec's example
demands. -/
theorem C3_parser_on_spec_example_line :
    parse_transaction_line "03/01/23 COFFEE SHOP PURCHASE -4.50".data 0 =
      some { date := "2023-03-01".data, description := "C".data, amount := 3,
             raw_text := "03/01/23 COFFEE SHOP PURCHASE -4.50".data, line_number := 0,
             transaction_id := none, confidence := 1 }
    ∧ "C".data ≠ "COFFEE SHOP PURCHASE".data ∧ (3 : ℚ) ≠ -4.50 := by
  refine ⟨by with_unfolding_all rfl, by decide, by norm_num⟩

/-- The confidence formula as claim C4 states it: a presence-based
0.3 + 0.3 + 0.2 + 0.2 + 0.1 sum capped at 1.0, in which a parsed amount
of 0 still counts as present.  (This is the claim's reading, stated for
comparison with `_calculate_confidence`, which instead tests Python
truthiness.) -/
def claimedConfidenceSpec (line : List Char) (date : Option (List Char))
    (amount : Option ℚ) (description : List Char) : ℚ :=
  let c : ℚ := 0
  let c := if date.isSome then c + 0.3 else c
  let c := if amount.isSome then c + 0.3 else c
  let c := if description != [] then c + 0.2 else c
  let c := if date.isSome && amount.isSome && description != [] then c + 0.2 else c
  let c := if hasTransactionIndicator line then c + 0.1 else c
  min 1 c

/-- C4 counterexample: the line "0 XY 01/01/23" is accepted with amount
0.0 (its first numeric token), and the code's confidence is 0.5 — the
amount contributes neither its 0.3 nor the 0.2 all-components bonus,
because `if amount:` is false for 0.0 — while the claim's presence-based
formula yields 1. -/
theorem C4_counterexample_zero_amount :
    (parse_transaction_line "0 XY 01/01/23".data 5).map (fun t => t.confidence) =
      some (1/2)
    ∧ claimedConfidenceSpec "0 XY 01/01/23".data
        (extract_date "0 XY 01/01/23".data) (extract_amount "0 XY 01/01/23".data)
        "0".data = 1
    ∧ ((1 : ℚ)/2) ≠ 1 := by
  refine ⟨by with_unfolding_all rfl, by with_unfolding_all rfl, by norm_num⟩

/-- C4 as amended: for every accepted transaction line the confidence is
the truthiness-based sum — 0.3 for a truthy date, 0.3 for a truthy
(non-`None`, nonzero) amount, 0.2 for a nonempty description, 0.2 when
all three are truthy, 0.1 for a transaction indicator, capped at 1.0.
Since acceptance forces a truthy date, a nonempty description and a
present amount, an accepted transaction has confidence 1 when its amount
is nonzero, and only 0.6 (indicator) or 0.5 (no indicator) when its
amount is 0 — the 0.3 amount contribution is not granted for amount 0. -/
theorem C4_amended_truthiness_confidence (line : List Char) (n : Nat)
    (t : PyTransaction) (h : parse_transaction_line line n = some t) :
    t.confidence = min 1
      ((if truthyOptStr (extract_date line) = true then (0.3 : ℚ) else 0)
       + (if truthyOptAmt (extract_amount line) = true then (0.3 : ℚ) else 0)
       + (if t.description ≠ [] then (0.2 : ℚ) else 0)
       + (if truthyOptStr (extract_date line) = true ∧ truthyOptAmt (extract_amount line) = true
            ∧ t.description ≠ [] then (0.2 : ℚ) else 0)
       + (if hasTransactionIndicator line = true then (0.1 : ℚ) else 0))
    ∧ (t.amount = 0 → t.confidence = (if hasTransactionIndicator line then (0.6 : ℚ) else 0.5))
    ∧ (t.amount ≠ 0 → t.confidence = 1) := by
  unfold parse_transaction_line at h
  split at h
  · simp at h
  · dsimp only at h
    split at h
    · rename_i hgu
      injection h with h2
      subst h2
      dsimp only
      rw [Bool.and_eq_true, Bool.and_eq_true] at hgu
      obtain ⟨⟨hD, hS⟩, hA⟩ := hgu
      have hS' : pyStrip _ ≠ [] := bne_iff_ne.mp hS
      obtain ⟨a, ha⟩ := Option.isSome_iff_exists.mp hA
      unfold calculate_confidence
      rw [ha]
      dsimp only
      refine ⟨?_, fun h0 => ?_, fun h0 => ?_⟩
      · by_cases hz : (a != 0) = true <;> by_cases hI : hasTransactionIndicator line = true <;>
          simp [hD, hS, hS', hz, hI, truthyOptAmt, min_def]
      · subst h0
        by_cases hI : hasTransactionIndicator line = true <;>
          simp [hD, hS, hI, truthyOptAmt, min_def] <;> norm_num
      · have hz : (a != 0) = true := bne_iff_ne.mpr h0
        by_cases hI : hasTransactionIndicator line = true <;>
          simp [hD, hS, hz, hI, truthyOptAmt, min_def] <;> norm_num
    · simp at h

/-- The transaction the code produces for the zero-amount line. -/
def zeroAmountTransaction : PyTransaction :=
  { date := "2023-01-01".data, description := "0".data, amount := 0,
    raw_text := "0 XY 01/01/23".data, line_number := 5, transaction_id := none,
    confidence := 1/2 }

/-- Witness for C4's amended theorem at the concrete zero-amount line. -/
theorem C4_amended_truthiness_confidence_witness :
    parse_transaction_line "0 XY 01/01/23".data 5 = some zeroAmountTransaction ∧
    zeroAmountTransaction.confidence =
      (if hasTransactionIndicator "0 XY 01/01/23".data then (0.6 : ℚ) else 0.5) := by
  have hp : parse_transaction_line "0 XY 01/01/23".data 5 = some zeroAmountTransaction := by
    with_unfolding_all rfl
  exact ⟨hp, (C4_amended_truthiness_confidence _ 5 _ hp).2.1 rfl⟩

end Autofill
